import Mathlib

/-!
Shallow embedding of the role/user access-control service
(`src/app/schemas.py`, `src/app/db.py`, `src/app/main.py`).

Conventions of the embedding:
* Python strings are Lean `String`s; `str.strip()` and `str.lower()` are
  modelled on the underlying character list (`pyStrip`, `pyLower`) so that
  all definitions reduce inside the kernel.  SQLite's `LOWER` and Python's
  `str.lower()` are both modelled as ASCII lowercasing (they agree on the
  ASCII inputs exercised here).
* `uuid4()` fresh-id generation is modelled deterministically by a
  `next_id` counter stored alongside the tables; every generated id is the
  current counter value and the counter is bumped.  Freshness of `uuid4`
  ids corresponds to the counter exceeding every stored id.
* Python exceptions become `Except PyExc`; a raised exception aborts the
  operation before any table write, so an `.error` result carries no
  updated store and the caller's state is unchanged by construction.
* The SQLite tables `roles`, `users`, `user_roles` are modelled as lists:
  `roles` and `users` in insertion (rowid) order; the `user_roles` rows of
  a user are kept, in `position` order, as that user's `role_ids` field.
  `users.id` and `roles.id` are primary keys, so in any state produced by
  the operations at most one row matches a given id.
-/

/-- Python `str.strip()`: drop leading and trailing whitespace. -/
def pyStrip (s : String) : String :=
  ⟨(((s.data.dropWhile Char.isWhitespace).reverse).dropWhile Char.isWhitespace).reverse⟩

/-- ASCII lowercasing: model of both Python `str.lower()` and SQLite `LOWER`. -/
def pyLower (s : String) : String :=
  ⟨s.data.map Char.toLower⟩

/-- Python `len` on a string counts characters. -/
def pyLen (s : String) : Nat :=
  s.data.length

/-- First-occurrence deduplication with an explicit `seen` set, the loop
shape shared by `dict.fromkeys` (in `UserCreate.normalized`) and the
seen-set loop of `DataStore.list_menus_for_user`. -/
def dedupAux {α} [DecidableEq α] (seen : List α) : List α → List α
  | [] => []
  | x :: xs => if x ∈ seen then dedupAux seen xs else x :: dedupAux (x :: seen) xs

/-- `dict.fromkeys(xs)` key order: first occurrence of each element. -/
def dedup_keep_first {α} [DecidableEq α] (xs : List α) : List α :=
  dedupAux [] xs

/-- Lexicographic order on character lists: SQLite text comparison
(bytewise `memcmp` on UTF-8, which agrees with code-point order). -/
def charListLe : List Char → List Char → Bool
  | [], _ => true
  | _ :: _, [] => false
  | a :: as, b :: bs => if a = b then charListLe as bs else decide (a < b)

/-- Insert into a list sorted by `le`. -/
def insertLe {α} (le : α → α → Bool) (a : α) : List α → List α
  | [] => [a]
  | x :: xs => if le x a then x :: insertLe le a xs else a :: x :: xs

/-- Sort by `le`: model of SQLite `ORDER BY`. -/
def sortLe {α} (le : α → α → Bool) : List α → List α
  | [] => []
  | x :: xs => insertLe le x (sortLe le xs)

/-- The Python exceptions raised by `schemas.py` and `db.py`.
`ValidationError` is declared in `schemas.py` as a subclass of
`ValueError`, so an `except ValueError` handler catches it too. -/
inductive PyExc where
  | validationError (msg : String)
  | valueError (msg : String)
  | keyError (msg : String)
  | attributeError (msg : String)
deriving DecidableEq

/-- `schemas._normalize_name`: strip, then enforce the minimum length. -/
def _normalize_name (raw : String) (minimum : Nat) (kind : String) : Except PyExc String :=
  let name := pyStrip raw
  if pyLen name < minimum then
    .error (.validationError
      ("El nombre del " ++ kind ++ " debe tener al menos " ++ toString minimum ++ " caracteres"))
  else
    .ok name

/-- `schemas._normalize_menus`: strip every entry, rejecting empty ones. -/
def _normalize_menus : List String → Except PyExc (List String)
  | [] => .ok []
  | raw_menu :: rest =>
    let menu := pyStrip raw_menu
    if menu.data.isEmpty then
      .error (.validationError "Los menús no pueden estar vacíos")
    else
      match _normalize_menus rest with
      | .error e => .error e
      | .ok menus => .ok (menu :: menus)

/-- Role ids (`uuid4()` values in the source) are modelled as naturals. -/
abbrev UUID := Nat

/-- `schemas.Role`. -/
structure Role where
  id : UUID
  name : String
  menus : List String := []
  is_super_admin : Bool := false
deriving DecidableEq

/-- `schemas.RoleCreate`. -/
structure RoleCreate where
  name : String
  menus : List String
  is_super_admin : Bool := false
deriving DecidableEq

/-- `RoleCreate.normalized`. -/
def RoleCreate.normalized (rc : RoleCreate) : Except PyExc RoleCreate :=
  match _normalize_name rc.name 3 "rol" with
  | .error e => .error e
  | .ok name =>
    match _normalize_menus rc.menus with
    | .error e => .error e
    | .ok menus => .ok { name := name, menus := menus, is_super_admin := rc.is_super_admin }

/-- `schemas.User`. -/
structure User where
  id : UUID
  name : String
  role_ids : List UUID := []
deriving DecidableEq

/-- `schemas.UserCreate`. -/
structure UserCreate where
  name : String
  role_ids : List UUID
deriving DecidableEq

/-- `UserCreate.normalized`: reject an empty role list, deduplicate the
role ids via `dict.fromkeys` (first occurrence wins), normalize the name
with minimum length 1. -/
def UserCreate.normalized (uc : UserCreate) : Except PyExc UserCreate :=
  if uc.role_ids.isEmpty then
    .error (.validationError "El usuario debe tener al menos un rol asignado")
  else
    match _normalize_name uc.name 1 "usuario" with
    | .error e => .error e
    | .ok name => .ok { name := name, role_ids := dedup_keep_first uc.role_ids }

/-- `schemas.UserRead`: a user with its roles resolved to full records. -/
structure UserRead where
  id : UUID
  name : String
  roles : List Role := []
deriving DecidableEq

/-- `schemas.MenusResponse`. -/
structure MenusResponse where
  menus : List String := []
deriving DecidableEq

/-- `db.DataStore`: the contents of the SQLite tables plus the fresh-id
counter (see the header comment).  A user's `user_roles` rows, in
`position` order, are its `role_ids`. -/
structure DataStore where
  roles : List Role
  users : List User
  next_id : UUID
deriving DecidableEq

/-- A `DataStore` freshly constructed against an empty database
(`_ensure_schema` creates empty tables). -/
def DataStore.fresh : DataStore :=
  { roles := [], users := [], next_id := 0 }

/-- `SELECT ... FROM roles WHERE id = ?` (`roles.id` is the primary key). -/
def DataStore.find_role (ds : DataStore) (role_id : UUID) : Option Role :=
  ds.roles.find? (fun r => r.id == role_id)

/-- `SELECT ... FROM users WHERE id = ?` (`users.id` is the primary key). -/
def DataStore.find_user (ds : DataStore) (user_id : UUID) : Option User :=
  ds.users.find? (fun u => u.id == user_id)

/-- The flag produced by joining a role id against the `roles` table:
`false` when no row matches (a join yields no row then). -/
def DataStore.super_admin_flag_of (ds : DataStore) (role_id : UUID) : Bool :=
  match ds.find_role role_id with
  | some r => r.is_super_admin
  | none => false

/-- `DataStore.create_super_admin_role`: insert the bootstrap role. -/
def DataStore.create_super_admin_role (ds : DataStore) : Role × DataStore :=
  let role : Role :=
    { id := ds.next_id, name := "Super Administrador", menus := ["admin"], is_super_admin := true }
  (role, { ds with roles := ds.roles ++ [role], next_id := ds.next_id + 1 })

/-- `DataStore.create_role`: normalize, reject a (case-insensitive)
duplicate name, reject the super-admin flag, then insert with a fresh id. -/
def DataStore.create_role (ds : DataStore) (payload : RoleCreate) :
    Except PyExc (Role × DataStore) :=
  match payload.normalized with
  | .error e => .error e
  | .ok normalized =>
    if ds.roles.any (fun r => pyLower r.name == pyLower normalized.name) then
      .error (.valueError "Ya existe un rol con ese nombre")
    else if normalized.is_super_admin then
      .error (.valueError "No se permite crear más roles de super administrador")
    else
      let role : Role :=
        { id := ds.next_id, name := normalized.name, menus := normalized.menus,
          is_super_admin := normalized.is_super_admin }
      .ok (role, { ds with roles := ds.roles ++ [role], next_id := ds.next_id + 1 })

/-- `DataStore.list_roles`: `SELECT ... FROM roles ORDER BY name`. -/
def DataStore.list_roles (ds : DataStore) : List Role :=
  sortLe (fun a b => charListLe a.name.data b.name.data) ds.roles

/-- `DataStore._super_admin_user_exists`: the three-way join — does any
existing user hold a super-admin-flagged role. -/
def DataStore.user_has_super_admin_role (ds : DataStore) (u : User) : Bool :=
  u.role_ids.any (fun rid => ds.super_admin_flag_of rid)

/-- `DataStore._super_admin_user_exists`. -/
def DataStore.super_admin_user_exists (ds : DataStore) : Bool :=
  ds.users.any (fun u => ds.user_has_super_admin_role u)

/-- `DataStore.create_user`: normalize; collect role ids missing from the
`roles` table while noting whether any resolved role is super-admin
flagged; reject on missing roles, then on a second super-admin user; then
insert the user row and its `user_roles` rows atomically. -/
def DataStore.create_user (ds : DataStore) (payload : UserCreate) :
    Except PyExc (User × DataStore) :=
  match payload.normalized with
  | .error e => .error e
  | .ok normalized =>
    let missing_roles := normalized.role_ids.filter (fun rid => (ds.find_role rid).isNone)
    let includes_super_admin := normalized.role_ids.any (fun rid => ds.super_admin_flag_of rid)
    if !missing_roles.isEmpty then
      .error (.keyError "Alguno de los roles no existe")
    else if includes_super_admin && ds.super_admin_user_exists then
      .error (.valueError "Ya existe un usuario super administrador")
    else
      let user : User := { id := ds.next_id, name := normalized.name,
                           role_ids := normalized.role_ids }
      .ok (user, { ds with users := ds.users ++ [user], next_id := ds.next_id + 1 })

/-- `DataStore._fetch_roles_for_user`: the user's `user_roles` rows in
`position` order, joined against `roles`. -/
def DataStore.fetch_roles_for_user (ds : DataStore) (user_id : UUID) : List Role :=
  match ds.find_user user_id with
  | none => []
  | some u => u.role_ids.filterMap (fun rid => ds.find_role rid)

/-- `DataStore._build_user_read`. -/
def DataStore.build_user_read (ds : DataStore) (user : User) : UserRead :=
  { id := user.id, name := user.name, roles := ds.fetch_roles_for_user user.id }

/-- `DataStore.list_users`: `SELECT ... FROM users ORDER BY name`, each
row expanded to its read view. -/
def DataStore.list_users (ds : DataStore) : List UserRead :=
  (sortLe (fun a b => charListLe a.name.data b.name.data) ds.users).map
    (fun u => ds.build_user_read u)

/-- `DataStore.get_user`: `KeyError` when no `users` row matches. -/
def DataStore.get_user (ds : DataStore) (user_id : UUID) : Except PyExc User :=
  match ds.find_user user_id with
  | none => .error (.keyError "Usuario no encontrado")
  | some u => .ok u

/-- The rows of the `user_roles` table, as (user_id, role_id) pairs. -/
def DataStore.user_role_pairs (ds : DataStore) : List (UUID × UUID) :=
  ds.users.flatMap (fun u => u.role_ids.map (fun rid => (u.id, rid)))

/-- `DataStore.is_super_admin`: the `user_roles × roles` join — note it
never touches the `users` table, so an unknown id simply yields `false`. -/
def DataStore.is_super_admin (ds : DataStore) (user_id : UUID) : Bool :=
  ds.user_role_pairs.any (fun p => p.1 == user_id && ds.super_admin_flag_of p.2)

/-- `DataStore.list_menus_for_user`: the seen-set aggregation loop over
the user's roles. -/
def DataStore.list_menus_for_user (ds : DataStore) (user_id : UUID) : List String :=
  dedupAux [] ((ds.fetch_roles_for_user user_id).flatMap (fun role => role.menus))

/-- The domain error taxonomy of `main.py`.  `uncaught` marks a Python
exception escaping the service untranslated (no handler for it). -/
inductive ServiceError where
  | notFound (msg : String)
  | permission (msg : String)
  | badRequest (msg : String)
  | uncaught (e : PyExc)
deriving DecidableEq

/-- Python attribute lookup `self.datastore.roles` performed by
`RoleService.__init__`: the SQLite-backed `DataStore` class defines
methods (`list_roles`, `create_role`, ...) and private fields, but no
attribute or property named `roles` — its role rows live in the database,
not on the object — so the lookup finds nothing. -/
def DataStore.attr_roles (_ds : DataStore) : Option (List Role) :=
  none

/-- `RoleService.__init__` body after `self.datastore` is set: evaluate
`self.datastore.roles` (an `AttributeError` when the attribute is
missing); if it yielded a falsy (empty) list, bootstrap the super-admin
role. -/
def RoleService.init (ds : DataStore) : Except PyExc DataStore :=
  match ds.attr_roles with
  | none => .error (.attributeError "DataStore object has no attribute roles")
  | some rs =>
    if rs.isEmpty then .ok (ds.create_super_admin_role).2 else .ok ds

/-- `RoleService.create_role`: `except ValueError` → `BadRequestError`.
`ValidationError` is a `ValueError` subclass, so it is caught too. -/
def RoleService.create_role (ds : DataStore) (payload : RoleCreate) :
    Except ServiceError (Role × DataStore) :=
  match ds.create_role payload with
  | .ok res => .ok res
  | .error (.valueError m) => .error (.badRequest m)
  | .error (.validationError m) => .error (.badRequest m)
  | .error e => .error (.uncaught e)

/-- `RoleService.list_roles`. -/
def RoleService.list_roles (ds : DataStore) : List Role :=
  ds.list_roles

/-- `RoleService.create_user`: `except ValueError` → `BadRequestError`
(again including `ValidationError`), `except KeyError` → `NotFoundError`;
on success the read view is built against the updated store. -/
def RoleService.create_user (ds : DataStore) (payload : UserCreate) :
    Except ServiceError (UserRead × DataStore) :=
  match ds.create_user payload with
  | .ok (user, ds2) => .ok (ds2.build_user_read user, ds2)
  | .error (.valueError m) => .error (.badRequest m)
  | .error (.validationError m) => .error (.badRequest m)
  | .error (.keyError _) => .error (.notFound "Rol no encontrado")
  | .error e => .error (.uncaught e)

/-- `RoleService._get_current_user`: `except KeyError` → `NotFoundError`. -/
def RoleService.get_current_user (ds : DataStore) (user_id : UUID) :
    Except ServiceError UserRead :=
  match ds.get_user user_id with
  | .ok user => .ok (ds.build_user_read user)
  | .error (.keyError _) => .error (.notFound "Usuario no encontrado")
  | .error e => .error (.uncaught e)

/-- `RoleService.list_users`. -/
def RoleService.list_users (ds : DataStore) (requester_id : UUID) :
    Except ServiceError (List UserRead) :=
  if ds.is_super_admin requester_id then
    .ok ds.list_users
  else
    match RoleService.get_current_user ds requester_id with
    | .error e => .error e
    | .ok requester => .ok [requester]

/-- `RoleService.get_user`. -/
def RoleService.get_user (ds : DataStore) (requester_id user_id : UUID) :
    Except ServiceError UserRead :=
  if requester_id ≠ user_id && !ds.is_super_admin requester_id then
    .error (.permission "No tienes permisos para ver este usuario")
  else
    RoleService.get_current_user ds user_id

/-- `RoleService.list_my_menus`. -/
def RoleService.list_my_menus (ds : DataStore) (requester_id : UUID) :
    Except ServiceError MenusResponse :=
  match RoleService.get_current_user ds requester_id with
  | .ok _ => .ok { menus := ds.list_menus_for_user requester_id }
  | .error e => .error e

/-- The store after the intended bootstrap of `db.py`
(`create_super_admin_role` against an empty repository). -/
def bootstrappedStore : DataStore :=
  (DataStore.fresh.create_super_admin_role).2

/-- The bootstrap role itself, with the first generated id. -/
def superAdminRole : Role :=
  { id := 0, name := "Super Administrador", menus := ["admin"], is_super_admin := true }

/-- States reachable from the bootstrapped store through successful
state-changing service operations (the read operations do not touch the
store). -/
inductive Reachable : DataStore → Prop where
  | boot : Reachable bootstrappedStore
  | createRole {ds payload r ds2} : Reachable ds →
      RoleService.create_role ds payload = .ok (r, ds2) → Reachable ds2
  | createUser {ds payload u ds2} : Reachable ds →
      RoleService.create_user ds payload = .ok (u, ds2) → Reachable ds2

/-- The number of existing users holding a super-admin-flagged role. -/
def superAdminUserCount (ds : DataStore) : Nat :=
  (ds.users.filter (fun u => ds.user_has_super_admin_role u)).length

/-- Aggregation written from the spec words: keep each element's first
occurrence, dropping later duplicates. -/
def specFirstOccurrence {α} [DecidableEq α] (xs : List α) : List α :=
  xs.foldl (fun acc x => if x ∈ acc then acc else acc ++ [x]) []

/-- Whether a service call failed with the `BadRequest` kind. -/
def failsBadRequest {α} : Except ServiceError α → Bool
  | .error (.badRequest _) => true
  | _ => false

/-- Concrete scenario: the first user, holding the bootstrap role. -/
def rootUser : User :=
  { id := 1, name := "Root", role_ids := [0] }

/-- The store after creating `rootUser` in the bootstrapped store. -/
def rootStore : DataStore :=
  { roles := [superAdminRole], users := [rootUser], next_id := 2 }

/-- Concrete scenario: a non-super-admin role. -/
def gerenteRole : Role :=
  { id := 2, name := "Gerente", menus := ["dashboard", "reportes"] }

/-- Concrete scenario: a non-super-admin user holding `gerenteRole`. -/
def empleadoUser : User :=
  { id := 3, name := "Empleado", role_ids := [2] }

/-- The store after bootstrapping and creating `rootUser`, `gerenteRole`
and `empleadoUser` through the service operations. -/
def staffStore : DataStore :=
  { roles := [superAdminRole, gerenteRole], users := [rootUser, empleadoUser], next_id := 4 }

/-! ## Helper lemmas -/

lemma insertLe_perm {α} (le : α → α → Bool) (a : α) :
    ∀ l : List α, (insertLe le a l).Perm (a :: l)
  | [] => List.Perm.refl _
  | x :: xs => by
    unfold insertLe
    split
    · exact (List.Perm.cons x (insertLe_perm le a xs)).trans (List.Perm.swap a x xs)
    · exact List.Perm.refl _

lemma sortLe_perm {α} (le : α → α → Bool) : ∀ l : List α, (sortLe le l).Perm l
  | [] => List.Perm.refl _
  | x :: xs => (insertLe_perm le x (sortLe le xs)).trans (List.Perm.cons x (sortLe_perm le xs))

lemma foldl_dedup {α} [DecidableEq α] :
    ∀ (xs seen acc : List α), (∀ x, x ∈ acc ↔ x ∈ seen) →
      xs.foldl (fun acc x => if x ∈ acc then acc else acc ++ [x]) acc = acc ++ dedupAux seen xs
  | [], seen, acc, _ => by simp [dedupAux]
  | x :: xs, seen, acc, h => by
    simp only [List.foldl_cons, dedupAux]
    by_cases hx : x ∈ seen
    · rw [if_pos ((h x).mpr hx), if_pos hx]
      exact foldl_dedup xs seen acc h
    · rw [if_neg (fun hc => hx ((h x).mp hc)), if_neg hx]
      rw [foldl_dedup xs (x :: seen) (acc ++ [x])
        (by intro y; simp only [List.mem_append, List.mem_singleton, List.mem_cons, h y]; tauto)]
      simp

lemma dedup_keep_first_eq_spec {α} [DecidableEq α] (xs : List α) :
    dedup_keep_first xs = specFirstOccurrence xs := by
  unfold specFirstOccurrence dedup_keep_first
  rw [foldl_dedup xs [] [] (fun x => Iff.rfl)]
  simp

lemma dedupAux_not_mem_seen {α} [DecidableEq α] :
    ∀ (xs seen : List α) (y : α), y ∈ dedupAux seen xs → y ∉ seen
  | [], _, _, hy => by simp [dedupAux] at hy
  | x :: xs, seen, y, hy => by
    unfold dedupAux at hy
    split at hy
    · exact dedupAux_not_mem_seen xs seen y hy
    · rcases List.mem_cons.mp hy with rfl | hmem
      · assumption
      · intro hseen
        exact dedupAux_not_mem_seen xs (x :: seen) y hmem (List.mem_cons_of_mem x hseen)

lemma dedupAux_nodup {α} [DecidableEq α] : ∀ (xs seen : List α), (dedupAux seen xs).Nodup
  | [], _ => List.nodup_nil
  | x :: xs, seen => by
    unfold dedupAux
    split
    · exact dedupAux_nodup xs seen
    · refine List.Nodup.cons ?_ (dedupAux_nodup xs (x :: seen))
      intro hmem
      exact dedupAux_not_mem_seen xs (x :: seen) x hmem (List.mem_cons_self x seen)

lemma spec_first_occurrence_nodup {α} [DecidableEq α] (xs : List α) :
    (specFirstOccurrence xs).Nodup := by
  rw [← dedup_keep_first_eq_spec]
  exact dedupAux_nodup xs []

lemma map_id_filterMap_find_role (ds : DataStore) :
    ∀ rids : List UUID, (∀ rid ∈ rids, (ds.find_role rid).isSome) →
      (rids.filterMap (fun rid => ds.find_role rid)).map Role.id = rids
  | [], _ => rfl
  | rid :: rest, h => by
    obtain ⟨r, hr⟩ := Option.isSome_iff_exists.mp (h rid (List.mem_cons_self rid rest))
    have hr' : ds.roles.find? (fun x => x.id == rid) = some r := hr
    have hid : r.id = rid := by simpa using List.find?_some hr'
    simp only [List.filterMap_cons, hr, List.map_cons, hid]
    rw [map_id_filterMap_find_role ds rest (fun x hx => h x (List.mem_cons_of_mem rid hx))]

lemma is_super_admin_of_find_user_none (ds : DataStore) (uid : UUID)
    (h : ds.find_user uid = none) : ds.is_super_admin uid = false := by
  unfold DataStore.find_user at h
  unfold DataStore.is_super_admin
  rw [List.any_eq_false]
  intro p hp
  unfold DataStore.user_role_pairs at hp
  simp only [List.mem_flatMap, List.mem_map] at hp
  obtain ⟨u, hu, rid, _, rfl⟩ := hp
  have hne : u.id ≠ uid := by simpa using List.find?_eq_none.mp h u hu
  simp [hne]

lemma UserCreate.normalized_ok {uc : UserCreate} {n : UserCreate}
    (h : uc.normalized = Except.ok n) : n.role_ids = dedup_keep_first uc.role_ids := by
  unfold UserCreate.normalized at h
  split at h
  · simp at h
  · split at h
    · simp at h
    · injection h with h
      subst h
      rfl

lemma create_role_ok_inv {ds : DataStore} {p : RoleCreate} {r : Role} {ds2 : DataStore}
    (h : DataStore.create_role ds p = .ok (r, ds2)) :
    r.is_super_admin = false ∧ ds2.roles = ds.roles ++ [r] ∧ ds2.users = ds.users := by
  unfold DataStore.create_role at h
  split at h
  · simp at h
  · split at h
    · simp at h
    · split at h
      · simp at h
      · rename_i hflag
        simp only [Except.ok.injEq, Prod.mk.injEq] at h
        obtain ⟨hr, hds2⟩ := h
        subst hr
        subst hds2
        exact ⟨by simpa using hflag, rfl, rfl⟩

lemma create_user_ok_inv {ds : DataStore} {p : UserCreate} {u : User} {ds2 : DataStore}
    (h : DataStore.create_user ds p = .ok (u, ds2)) :
    ∃ n, p.normalized = .ok n ∧
      n.role_ids.filter (fun rid => (ds.find_role rid).isNone) = [] ∧
      (n.role_ids.any (fun rid => ds.super_admin_flag_of rid) &&
        ds.super_admin_user_exists) = false ∧
      u = { id := ds.next_id, name := n.name, role_ids := n.role_ids } ∧
      ds2 = { ds with users := ds.users ++ [u], next_id := ds.next_id + 1 } := by
  unfold DataStore.create_user at h
  split at h
  · simp at h
  · rename_i n hn
    dsimp only at h
    split at h
    · simp at h
    · rename_i hmiss
      split at h
      · simp at h
      · rename_i hguard
        simp only [Except.ok.injEq, Prod.mk.injEq] at h
        obtain ⟨hu, hds2⟩ := h
        subst hu
        refine ⟨n, hn, ?_, by simpa using hguard, rfl, hds2.symm⟩
        have hempty : (n.role_ids.filter (fun rid => (ds.find_role rid).isNone)).isEmpty = true := by
          simpa using hmiss
        simpa [List.isEmpty_iff] using hempty

lemma service_create_role_ok {ds : DataStore} {p : RoleCreate} {r : Role} {ds2 : DataStore}
    (h : RoleService.create_role ds p = .ok (r, ds2)) :
    DataStore.create_role ds p = .ok (r, ds2) := by
  unfold RoleService.create_role at h
  split at h
  · rename_i res heq
    injection h with h
    subst h
    exact heq
  all_goals simp at h

lemma service_create_user_ok {ds : DataStore} {p : UserCreate} {ur : UserRead} {ds2 : DataStore}
    (h : RoleService.create_user ds p = .ok (ur, ds2)) :
    ∃ user, DataStore.create_user ds p = .ok (user, ds2) ∧ ur = ds2.build_user_read user := by
  unfold RoleService.create_user at h
  split at h
  · rename_i user ds2' heq
    simp only [Except.ok.injEq, Prod.mk.injEq] at h
    obtain ⟨hur, hds⟩ := h
    subst hds
    exact ⟨user, heq, hur.symm⟩
  all_goals simp at h

lemma flag_of_roles_eq {ds ds' : DataStore} (h : ds'.roles = ds.roles) (rid : UUID) :
    ds'.super_admin_flag_of rid = ds.super_admin_flag_of rid := by
  unfold DataStore.super_admin_flag_of DataStore.find_role
  rw [h]

lemma flag_of_append_unflagged {ds ds' : DataStore} {r : Role}
    (h : ds'.roles = ds.roles ++ [r]) (hr : r.is_super_admin = false) (rid : UUID) :
    ds'.super_admin_flag_of rid = ds.super_admin_flag_of rid := by
  unfold DataStore.super_admin_flag_of DataStore.find_role
  rw [h, List.find?_append]
  cases hf : ds.roles.find? (fun x => x.id == rid) with
  | some a => rfl
  | none =>
    simp only [Option.none_or]
    cases hs : List.find? (fun x => x.id == rid) [r] with
    | none => rfl
    | some b =>
      have hb : b = r := by
        have := List.mem_of_find?_eq_some hs
        simpa using this
      subst hb
      exact hr

lemma user_has_congr {ds ds' : DataStore}
    (hflag : ∀ rid, ds'.super_admin_flag_of rid = ds.super_admin_flag_of rid) (u : User) :
    ds'.user_has_super_admin_role u = ds.user_has_super_admin_role u := by
  unfold DataStore.user_has_super_admin_role
  simp only [hflag]

lemma count_congr {ds ds' : DataStore}
    (hflag : ∀ rid, ds'.super_admin_flag_of rid = ds.super_admin_flag_of rid)
    (husers : ds'.users = ds.users) :
    superAdminUserCount ds' = superAdminUserCount ds := by
  unfold superAdminUserCount
  rw [husers]
  congr 1
  exact List.filter_congr (fun u _ => user_has_congr hflag u)

lemma count_append {ds ds2 : DataStore} {u : User} (husers : ds2.users = ds.users ++ [u])
    (hflag : ∀ rid, ds2.super_admin_flag_of rid = ds.super_admin_flag_of rid) :
    superAdminUserCount ds2 =
      superAdminUserCount ds + (if ds.user_has_super_admin_role u then 1 else 0) := by
  unfold superAdminUserCount
  rw [husers, List.filter_congr (fun v _ => user_has_congr hflag v), List.filter_append,
    List.length_append]
  congr 1
  by_cases hu : ds.user_has_super_admin_role u <;> simp [hu]

lemma count_eq_zero_of_not_exists {ds : DataStore}
    (h : ds.super_admin_user_exists = false) : superAdminUserCount ds = 0 := by
  unfold superAdminUserCount
  unfold DataStore.super_admin_user_exists at h
  rw [List.length_eq_zero, List.filter_eq_nil_iff]
  intro a ha
  simpa using List.any_eq_false.mp h a ha

lemma reach_count_le_one {ds : DataStore} (h : Reachable ds) : superAdminUserCount ds ≤ 1 := by
  induction h with
  | boot => decide
  | createRole _ hok ih =>
    rename_i ds' payload r ds2 _
    obtain ⟨hflagr, hroles, husers⟩ := create_role_ok_inv (service_create_role_ok hok)
    rwa [count_congr (flag_of_append_unflagged hroles hflagr) husers]
  | createUser _ hok ih =>
    rename_i ds' payload ur ds2 _
    obtain ⟨user, hds, hur⟩ := service_create_user_ok hok
    obtain ⟨n, hn, hmiss, hguard, huser, hds2⟩ := create_user_ok_inv hds
    have hroles : ds2.roles = ds'.roles := by rw [hds2]
    have husers : ds2.users = ds'.users ++ [user] := by rw [hds2]
    rw [count_append husers (flag_of_roles_eq hroles)]
    by_cases hu : ds'.user_has_super_admin_role user
    · have hincl : n.role_ids.any (fun rid => ds'.super_admin_flag_of rid) = true := by
        have : user.role_ids = n.role_ids := by rw [huser]
        unfold DataStore.user_has_super_admin_role at hu
        rwa [this] at hu
      have hex : ds'.super_admin_user_exists = false := by
        cases hsx : ds'.super_admin_user_exists with
        | false => rfl
        | true => rw [hincl, hsx] at hguard; simp at hguard
      rw [count_eq_zero_of_not_exists hex]
      simp [hu]
    · simp [hu, ih]

lemma reach_flagged_roles {ds : DataStore} (h : Reachable ds) :
    ds.roles.filter (fun r => r.is_super_admin) = [superAdminRole] := by
  induction h with
  | boot => rfl
  | createRole _ hok ih =>
    obtain ⟨hflagr, hroles, _⟩ := create_role_ok_inv (service_create_role_ok hok)
    rw [hroles, List.filter_append, ih]
    simp [hflagr]
  | createUser _ hok ih =>
    obtain ⟨user, hds, _⟩ := service_create_user_ok hok
    obtain ⟨n, _, _, _, _, hds2⟩ := create_user_ok_inv hds
    have hroles : _ = _ := congrArg DataStore.roles hds2
    rw [hroles]
    exact ih

/-! ## Claim theorems -/

/-- Claim C1 (code bug): the spec and the repository's own tests expect
that constructing the service against a repository with zero roles
succeeds and bootstraps the super-admin role.  The constructor instead
evaluates `self.datastore.roles`, an attribute the SQLite `DataStore`
does not define, so construction raises `AttributeError` on a fresh empty
store and creates nothing: the bootstrap branch (and
`create_super_admin_role`) is never reached. -/
theorem C1_construction_raises_attribute_error :
    RoleService.init DataStore.fresh =
      .error (.attributeError "DataStore object has no attribute roles") ∧
    DataStore.fresh.roles = [] :=
  ⟨rfl, rfl⟩

/-- Claim C2: in every state reachable from the bootstrapped store, at
most one existing user holds a super-admin-flagged role, and a
`create_user` call whose (normalized, fully resolving) payload includes a
super-admin-flagged role while such a user already exists fails
`BadRequest`.  In this embedding an `.error` result carries no successor
store — mirroring the source, which raises before the inserts — so the
stored roles, users and associations are unchanged on failure. -/
theorem C2_single_super_admin_user (ds : DataStore) (h : Reachable ds) :
    superAdminUserCount ds ≤ 1 ∧
    ∀ payload n, UserCreate.normalized payload = Except.ok n →
      n.role_ids.filter (fun rid => (ds.find_role rid).isNone) = [] →
      n.role_ids.any (fun rid => ds.super_admin_flag_of rid) = true →
      ds.super_admin_user_exists = true →
      RoleService.create_user ds payload =
        .error (.badRequest "Ya existe un usuario super administrador") := by
  refine ⟨reach_count_le_one h, ?_⟩
  intro payload n hn hmiss hincl hex
  unfold RoleService.create_user DataStore.create_user
  rw [hn]
  dsimp only
  simp [hmiss, hincl, hex]

/-- Claim C3: `listUsers(requesterId)` returns all existing users when
the requester holds a super-admin role (the repository listing, a
permutation of the read views of every stored user), returns exactly the
requester's own read view when the requester exists without a super-admin
role, and fails `NotFound` when the requester id resolves to no user. -/
theorem C3_list_users_scoping (ds : DataStore) (rid : UUID) :
    (ds.is_super_admin rid = true →
      RoleService.list_users ds rid = .ok ds.list_users ∧
      ds.list_users.Perm (ds.users.map (fun u => ds.build_user_read u))) ∧
    (∀ u, ds.find_user rid = some u → ds.is_super_admin rid = false →
      RoleService.list_users ds rid = .ok [ds.build_user_read u]) ∧
    (ds.find_user rid = none →
      RoleService.list_users ds rid = .error (.notFound "Usuario no encontrado")) := by
  refine ⟨?_, ?_, ?_⟩
  · intro hsup
    refine ⟨by simp [RoleService.list_users, hsup], ?_⟩
    unfold DataStore.list_users
    exact List.Perm.map _ (sortLe_perm _ ds.users)
  · intro u hu hsup
    simp [RoleService.list_users, hsup, RoleService.get_current_user, DataStore.get_user, hu]
  · intro hnone
    have hsup := is_super_admin_of_find_user_none ds rid hnone
    simp [RoleService.list_users, hsup, RoleService.get_current_user, DataStore.get_user, hnone]

/-- Claim C4: an existing non-super-admin requester asking for any id
other than their own gets `Permission`; when the ids coincide or the
requester is a super admin the call is allowed, succeeding on an existing
target and failing `NotFound` exactly when the target id has no user. -/
theorem C4_get_user_permission (ds : DataStore) (rid uid : UUID) :
    ((ds.find_user rid).isSome = true → ds.is_super_admin rid = false → rid ≠ uid →
      RoleService.get_user ds rid uid =
        .error (.permission "No tienes permisos para ver este usuario")) ∧
    (rid = uid ∨ ds.is_super_admin rid = true →
      ((ds.find_user uid = none →
        RoleService.get_user ds rid uid = .error (.notFound "Usuario no encontrado")) ∧
       (∀ u, ds.find_user uid = some u →
        RoleService.get_user ds rid uid = .ok (ds.build_user_read u)))) := by
  constructor
  · intro _ hsup hne
    simp [RoleService.get_user, hne, hsup]
  · intro hallow
    have hcond : (decide (rid ≠ uid) && !ds.is_super_admin rid) = false := by
      rcases hallow with rfl | hsup
      · simp
      · simp [hsup]
    constructor
    · intro hnone
      unfold RoleService.get_user
      rw [if_neg (by rw [hcond]; simp)]
      simp [RoleService.get_current_user, DataStore.get_user, hnone]
    · intro u hu
      unfold RoleService.get_user
      rw [if_neg (by rw [hcond]; simp)]
      simp [RoleService.get_current_user, DataStore.get_user, hu]

/-- Claim C5: for an existing requester, `listMyMenus` returns the
concatenation of the menus of the requester's roles — roles in assignment
order, each role's menus in declaration order — deduplicated keeping the
first occurrence (`specFirstOccurrence` is the spec-side description of
that aggregation); for an unknown requester id it fails `NotFound`. -/
theorem C5_list_my_menus_aggregation (ds : DataStore) (rid : UUID) :
    (∀ u, ds.find_user rid = some u →
      RoleService.list_my_menus ds rid = .ok (MenusResponse.mk (specFirstOccurrence
        ((u.role_ids.filterMap (fun rid => ds.find_role rid)).flatMap
          (fun role => role.menus))))) ∧
    (ds.find_user rid = none →
      RoleService.list_my_menus ds rid = .error (.notFound "Usuario no encontrado")) := by
  constructor
  · intro u hu
    unfold RoleService.list_my_menus RoleService.get_current_user DataStore.get_user
    rw [hu]
    dsimp only
    unfold DataStore.list_menus_for_user DataStore.fetch_roles_for_user
    rw [hu]
    have hd := dedup_keep_first_eq_spec
      ((u.role_ids.filterMap (fun rid => ds.find_role rid)).flatMap (fun role => role.menus))
    unfold dedup_keep_first at hd
    rw [hd]
  · intro hnone
    simp [RoleService.list_my_menus, RoleService.get_current_user, DataStore.get_user, hnone]

/-- Claim C6: a successful user creation whose request may contain
duplicate role ids stores and returns each distinct id exactly once, in
first-occurrence order (`specFirstOccurrence`), which is duplicate-free.
The freshness hypothesis states that the generated id is unused, as
`uuid4` guarantees in the source. -/
theorem C6_duplicate_role_ids_collapsed (ds : DataStore) (payload : UserCreate)
    (ur : UserRead) (ds2 : DataStore)
    (hfresh : ∀ u ∈ ds.users, u.id ≠ ds.next_id)
    (hok : RoleService.create_user ds payload = .ok (ur, ds2)) :
    ds2.find_user ur.id =
      some { id := ur.id, name := ur.name,
             role_ids := specFirstOccurrence payload.role_ids } ∧
    ur.roles.map Role.id = specFirstOccurrence payload.role_ids ∧
    (specFirstOccurrence payload.role_ids).Nodup := by
  obtain ⟨user, hds, hur⟩ := service_create_user_ok hok
  obtain ⟨n, hn, hmiss, _, huser, hds2⟩ := create_user_ok_inv hds
  have hspec : n.role_ids = specFirstOccurrence payload.role_ids := by
    rw [UserCreate.normalized_ok hn, dedup_keep_first_eq_spec]
  have hresolve : ∀ rid ∈ n.role_ids, (ds.find_role rid).isSome := by
    intro rid hmem
    by_contra hc
    have hnonef : ds.find_role rid = none := Option.not_isSome_iff_eq_none.mp hc
    have hin : rid ∈ n.role_ids.filter (fun rid => (ds.find_role rid).isNone) := by
      rw [List.mem_filter]
      exact ⟨hmem, by rw [hnonef]; rfl⟩
    rw [hmiss] at hin
    cases hin
  subst huser
  subst hds2
  have hfind : DataStore.find_user
      { roles := ds.roles,
        users := ds.users ++ [{ id := ds.next_id, name := n.name, role_ids := n.role_ids }],
        next_id := ds.next_id + 1 }
      ds.next_id =
      some { id := ds.next_id, name := n.name, role_ids := n.role_ids } := by
    unfold DataStore.find_user
    rw [List.find?_append]
    have h1 : ds.users.find? (fun u => u.id == ds.next_id) = none := by
      rw [List.find?_eq_none]
      intro a ha
      simp [hfresh a ha]
    rw [h1]
    simp [List.find?]
  have hurid : ur.id = ds.next_id := by rw [hur]; rfl
  have hurname : ur.name = n.name := by rw [hur]; rfl
  have hurroles : ur.roles = n.role_ids.filterMap (fun rid => ds.find_role rid) := by
    rw [hur]
    unfold DataStore.build_user_read DataStore.fetch_roles_for_user
    dsimp only
    rw [hfind]
    rfl
  refine ⟨?_, ?_, ?_⟩
  · rw [hurid, hurname, ← hspec, hfind]
  · rw [hurroles, ← hspec]
    exact map_id_filterMap_find_role ds n.role_ids hresolve
  · rw [← hspec, UserCreate.normalized_ok hn]
    exact dedupAux_nodup payload.role_ids []

/-- Claim C7 counterexample: `createRole` with the too-short name "ab",
run on the bootstrapped store, fails with the `BadRequest` kind — not the
`ValidationError` kind the claim names.  The `ValidationError` raised by
normalization is a `ValueError` subclass, so the service's
`except ValueError` handler catches it and re-raises `BadRequestError`. -/
theorem C7_short_name_yields_bad_request_kind :
    RoleService.create_role bootstrappedStore { name := "ab", menus := ["dashboard"] } =
      .error (.badRequest "El nombre del rol debe tener al menos 3 caracteres") :=
  rfl

/-- Claim C7 as amended: a role creation request whose trimmed name is
shorter than 3 characters makes `createRole` fail with the `BadRequest`
kind (carrying the validation message), and the failure happens during
normalization, before any repository write: the error branch carries no
successor store, so the stored state is untouched. -/
theorem C7_short_name_fails_before_write (ds : DataStore) (payload : RoleCreate)
    (h : pyLen (pyStrip payload.name) < 3) :
    RoleService.create_role ds payload =
      .error (.badRequest "El nombre del rol debe tener al menos 3 caracteres") := by
  unfold RoleService.create_role DataStore.create_role RoleCreate.normalized _normalize_name
  dsimp only
  rw [if_pos h]
  rfl

/-- Claim C8: a role creation request that normalizes successfully but
whose name equals an existing role's name case-insensitively fails
`BadRequest`; the duplicate check precedes the insert, so no role is
added (the error branch carries no successor store). -/
theorem C8_duplicate_name_bad_request (ds : DataStore) (payload n : RoleCreate)
    (hn : RoleCreate.normalized payload = .ok n)
    (hdup : ∃ r ∈ ds.roles, pyLower r.name = pyLower n.name) :
    RoleService.create_role ds payload =
      .error (.badRequest "Ya existe un rol con ese nombre") := by
  have hany : ds.roles.any (fun r => pyLower r.name == pyLower n.name) = true := by
    obtain ⟨r, hr, he⟩ := hdup
    exact List.any_eq_true.mpr ⟨r, hr, by simp [he]⟩
  unfold RoleService.create_role DataStore.create_role
  rw [hn]
  dsimp only
  simp [hany]

/-- Claim C9: every role creation request that passes validation with the
super-admin flag set fails with the `BadRequest` kind (either as a
duplicate name or through the unconditional flag rejection — in both
branches nothing is inserted), and in every reachable state the
bootstrap-created role is the only role flagged super-admin. -/
theorem C9_super_admin_flag_forbidden :
    (∀ (ds : DataStore) (payload n : RoleCreate), RoleCreate.normalized payload = .ok n →
      n.is_super_admin = true →
      failsBadRequest (RoleService.create_role ds payload) = true) ∧
    (∀ ds : DataStore, Reachable ds →
      ds.roles.filter (fun r => r.is_super_admin) = [superAdminRole]) := by
  constructor
  · intro ds payload n hn hflag
    unfold RoleService.create_role DataStore.create_role
    rw [hn]
    dsimp only
    by_cases hdup : ds.roles.any (fun r => pyLower r.name == pyLower n.name) = true
    · simp [hdup, failsBadRequest]
    · simp [hdup, hflag, failsBadRequest]
  · exact fun ds h => reach_flagged_roles h

/-- Claim C10: the repository's `is_super_admin` joins `user_roles`
against `roles` without consulting the `users` table, so an id with no
user row simply yields `false`; consequently `getUser` with an unknown
requester id and a different target id fails `Permission`, not
`NotFound`. -/
theorem C10_unknown_requester_gets_permission (ds : DataStore) (rid uid : UUID)
    (h : ds.find_user rid = none) :
    ds.is_super_admin rid = false ∧
    (rid ≠ uid →
      RoleService.get_user ds rid uid =
        .error (.permission "No tienes permisos para ver este usuario")) := by
  refine ⟨is_super_admin_of_find_user_none ds rid h, ?_⟩
  intro hne
  simp [RoleService.get_user, hne, is_super_admin_of_find_user_none ds rid h]

/-! ## Witnesses -/

/-- Witness for C2 on a concrete reachable state: after creating "Root"
with the bootstrap role, the count is within bound and creating a second
super-admin user fails `BadRequest`. -/
theorem C2_witness :
    superAdminUserCount rootStore ≤ 1 ∧
    RoleService.create_user rootStore { name := "Otro", role_ids := [0] } =
      .error (.badRequest "Ya existe un usuario super administrador") := by
  have hreach : Reachable rootStore :=
    @Reachable.createUser bootstrappedStore { name := "Root", role_ids := [0] }
      { id := 1, name := "Root", roles := [superAdminRole] } rootStore Reachable.boot rfl
  have h := C2_single_super_admin_user rootStore hreach
  exact ⟨h.1, h.2 { name := "Otro", role_ids := [0] } { name := "Otro", role_ids := [0] }
    rfl rfl rfl rfl⟩

/-- Witness for C3 on the concrete staff scenario. -/
theorem C3_witness :
    RoleService.list_users staffStore 1 = .ok staffStore.list_users ∧
    RoleService.list_users staffStore 3 = .ok [staffStore.build_user_read empleadoUser] ∧
    RoleService.list_users staffStore 99 = .error (.notFound "Usuario no encontrado") :=
  ⟨((C3_list_users_scoping staffStore 1).1 rfl).1,
   (C3_list_users_scoping staffStore 3).2.1 empleadoUser rfl rfl,
   (C3_list_users_scoping staffStore 99).2.2 rfl⟩

/-- Witness for C4 on the concrete staff scenario. -/
theorem C4_witness :
    RoleService.get_user staffStore 3 1 =
      .error (.permission "No tienes permisos para ver este usuario") ∧
    RoleService.get_user staffStore 3 3 = .ok (staffStore.build_user_read empleadoUser) ∧
    RoleService.get_user staffStore 1 99 = .error (.notFound "Usuario no encontrado") :=
  ⟨(C4_get_user_permission staffStore 3 1).1 rfl rfl (by decide),
   ((C4_get_user_permission staffStore 3 3).2 (Or.inl rfl)).2 empleadoUser rfl,
   ((C4_get_user_permission staffStore 1 99).2 (Or.inr rfl)).1 rfl⟩

/-- Witness for C5 on the concrete staff scenario. -/
theorem C5_witness :
    RoleService.list_my_menus staffStore 3 = .ok { menus := ["dashboard", "reportes"] } ∧
    RoleService.list_my_menus staffStore 99 = .error (.notFound "Usuario no encontrado") :=
  ⟨((C5_list_my_menus_aggregation staffStore 3).1 empleadoUser rfl).trans rfl,
   (C5_list_my_menus_aggregation staffStore 99).2 rfl⟩

/-- Witness for C6: creating "Editor" with the duplicated list [0, 0]
stores and returns the single role 0. -/
theorem C6_witness :
    DataStore.find_user
      { roles := [superAdminRole],
        users := [{ id := 1, name := "Editor", role_ids := [0] }], next_id := 2 } 1 =
      some { id := 1, name := "Editor", role_ids := specFirstOccurrence [0, 0] } ∧
    [superAdminRole].map Role.id = specFirstOccurrence [0, 0] ∧
    (specFirstOccurrence ([0, 0] : List UUID)).Nodup :=
  C6_duplicate_role_ids_collapsed bootstrappedStore { name := "Editor", role_ids := [0, 0] }
    { id := 1, name := "Editor", roles := [superAdminRole] }
    { roles := [superAdminRole],
      users := [{ id := 1, name := "Editor", role_ids := [0] }], next_id := 2 }
    (fun u hu => absurd hu (List.not_mem_nil u)) rfl

/-- Witness for the amended C7 at the concrete short name "ab". -/
theorem C7_witness :
    pyLen (pyStrip "ab") < 3 ∧
    RoleService.create_role bootstrappedStore { name := "ab", menus := ["x"] } =
      .error (.badRequest "El nombre del rol debe tener al menos 3 caracteres") :=
  ⟨by decide,
   C7_short_name_fails_before_write bootstrappedStore { name := "ab", menus := ["x"] } (by decide)⟩

/-- Witness for C8: creating " gerente " over the staff scenario clashes
case-insensitively with the existing "Gerente". -/
theorem C8_witness :
    RoleService.create_role staffStore { name := " gerente ", menus := ["x"] } =
      .error (.badRequest "Ya existe un rol con ese nombre") :=
  C8_duplicate_name_bad_request staffStore { name := " gerente ", menus := ["x"] }
    { name := "gerente", menus := ["x"], is_super_admin := false } rfl
    ⟨gerenteRole, by decide, rfl⟩

/-- Witness for C9 at a concrete flagged request on the bootstrapped
store. -/
theorem C9_witness :
    failsBadRequest (RoleService.create_role bootstrappedStore
      { name := "Otro Root", menus := ["todo"], is_super_admin := true }) = true ∧
    bootstrappedStore.roles.filter (fun r => r.is_super_admin) = [superAdminRole] :=
  ⟨C9_super_admin_flag_forbidden.1 bootstrappedStore
      { name := "Otro Root", menus := ["todo"], is_super_admin := true }
      { name := "Otro Root", menus := ["todo"], is_super_admin := true } rfl rfl,
   C9_super_admin_flag_forbidden.2 bootstrappedStore Reachable.boot⟩

/-- Witness for C10 at the unknown requester id 99. -/
theorem C10_witness :
    staffStore.is_super_admin 99 = false ∧
    RoleService.get_user staffStore 99 1 =
      .error (.permission "No tienes permisos para ver este usuario") :=
  ⟨(C10_unknown_requester_gets_permission staffStore 99 1 rfl).1,
   (C10_unknown_requester_gets_permission staffStore 99 1 rfl).2 (by decide)⟩
